import Mathlib

/-
Verification of the OM1 hardware I/O bridge layer.

Shallow embedding of:
  - src/actions/motor/interface.py          (MotorAction enumeration)
  - src/actions/motor/connector/serial_control.py  (SerialMotor)
  - src/actions/motor/connector/wifi_control.py    (WifiMotor)
  - src/inputs/plugins/esp32_control.py     (Esp32Control)
  - src/inputs/plugins/esp32_cam_video.py   (Esp32CamVideo)

Stateful Python methods are embedded as pure functions from the relevant
instance state (plus an oracle describing whether each underlying OS call
succeeds or raises) to the successor state together with a log of the
observable effects (writes, sends, close attempts, log lines, propagated
exceptions).  Timestamps (Python floats from time.time()) are carried as
abstract clock readings of type Nat; no arithmetic is ever done on them.
-/

namespace OM1

/-- The MotorAction enumeration of src/actions/motor/interface.py:
`class MotorAction(str, Enum)` with members FORWARD..STOP. -/
inductive MotorAction
  | forward
  | back
  | left
  | right
  | stop
deriving DecidableEq, Repr

/-- The underlying string value of each member (`MotorAction.FORWARD.value == "forward"`). -/
def MotorAction.value : MotorAction → String
  | .forward => "forward"
  | .back => "back"
  | .left => "left"
  | .right => "right"
  | .stop => "stop"

/-- Python `str()` applied to a member of a `(str, Enum)` class.  CPython's
`Enum.__str__` (unchanged for custom str mixins in every released version,
3.11 included) yields `"ClassName.MEMBERNAME"`, not the underlying value;
this is what `action_str = str(output_interface.action)` computes in both
connectors' `connect` methods. -/
def MotorAction.pyStr : MotorAction → String
  | .forward => "MotorAction.FORWARD"
  | .back => "MotorAction.BACK"
  | .left => "MotorAction.LEFT"
  | .right => "MotorAction.RIGHT"
  | .stop => "MotorAction.STOP"

/-- The dictionary lookup `signal_map.get(action_str)` of both connectors.
The dict keys are the `MotorAction` members; since `MotorAction` mixes in
`str`, each key hashes and compares equal to its underlying value
("forward", ...).  Hence a string key is found iff it equals one of the
five member values. -/
def signalMapGet (actionStr : String) : Option String :=
  if actionStr = "forward" then some "F"
  else if actionStr = "back" then some "B"
  else if actionStr = "stop" then some "S"
  else if actionStr = "left" then some "L"
  else if actionStr = "right" then some "R"
  else none

/-- A pyserial handle object held in `SerialMotor.ser`: carries its
`is_open` flag (an externally closed device can leave a handle that is
present but not open). -/
structure SerPort where
  portOpen : Bool
deriving DecidableEq, Repr

/-- Result of `SerialMotor._ensure_connection`: the returned boolean, the
new value of `self.ser`, and how many times the `serial.Serial(...)`
constructor (the underlying open) was invoked. -/
structure SerialEnsureResult where
  ok : Bool
  ser : Option SerPort
  opens : Nat
deriving DecidableEq, Repr

/-- `SerialMotor._ensure_connection` (serial_control.py lines 18-29):
if `self.ser is None or not self.ser.is_open`, attempt
`serial.Serial(port, baudrate, timeout=1)`; on success store the handle and
return True, on any exception set `self.ser = None` and return False;
otherwise return True with no side effect.  `openOk` tells whether the
constructor call would succeed. -/
def serialEnsureConnection (ser : Option SerPort) (openOk : Bool) : SerialEnsureResult :=
  match ser with
  | some p =>
    if p.portOpen then
      { ok := true, ser := some p, opens := 0 }
    else if openOk then
      { ok := true, ser := some { portOpen := true }, opens := 1 }
    else
      { ok := false, ser := none, opens := 1 }
  | none =>
    if openOk then
      { ok := true, ser := some { portOpen := true }, opens := 1 }
    else
      { ok := false, ser := none, opens := 1 }

/-- Behaviour of the OS-level serial calls during one `connect` invocation. -/
structure SerialOracle where
  openOk : Bool
  writeOk : Bool
  closeOk : Bool
deriving DecidableEq, Repr

/-- Observable outcome of one `SerialMotor.connect` call. -/
structure SerialConnectResult where
  /-- final value of `self.ser` -/
  ser : Option SerPort
  /-- payloads passed to `self.ser.write` (the utf-8 text written) -/
  writes : List String
  /-- the (single possible) write raised -/
  writeFailed : Bool
  /-- number of `self.ser.close()` attempts made in the failure-cleanup path -/
  closesAttempted : Nat
  /-- the `logging.error(f"Unknown action: ...")` branch ran -/
  unknownLogged : Bool
  /-- an exception escaped `connect` to the caller -/
  raised : Bool
  /-- `serial.Serial` constructor invocations -/
  opens : Nat
deriving DecidableEq, Repr

/-- `SerialMotor.connect` (serial_control.py lines 31-61): ensure the
connection (drop the command if that fails); look the stringified action up
in `signal_map`; if found, write `f"{signal}\n".encode('utf-8')`, and on a
write exception log, close the handle inside try/except-pass, and set
`self.ser = None`; if not found, log "Unknown action". -/
def serialConnect (ser0 : Option SerPort) (o : SerialOracle) (actionStr : String) :
    SerialConnectResult :=
  let e := serialEnsureConnection ser0 o.openOk
  if e.ok then
    match signalMapGet actionStr with
    | some signal =>
      if o.writeOk then
        { ser := e.ser, writes := [signal ++ "\n"], writeFailed := false,
          closesAttempted := 0, unknownLogged := false, raised := false, opens := e.opens }
      else
        { ser := none, writes := [signal ++ "\n"], writeFailed := true,
          closesAttempted := if e.ser.isSome then 1 else 0,
          unknownLogged := false, raised := false, opens := e.opens }
    | none =>
      { ser := e.ser, writes := [], writeFailed := false, closesAttempted := 0,
        unknownLogged := true, raised := false, opens := e.opens }
  else
    { ser := e.ser, writes := [], writeFailed := false, closesAttempted := 0,
      unknownLogged := false, raised := false, opens := e.opens }

/-- Outcome of `SerialMotor.close`. -/
structure SerialCloseResult where
  ser : Option SerPort
  raised : Bool
deriving DecidableEq, Repr

/-- `SerialMotor.close` (serial_control.py lines 63-66):
`if self.ser and self.ser.is_open: self.ser.close(); self.ser = None`.
The close call is not guarded, so if it raises the exception propagates and
`self.ser = None` never runs. -/
def serialClose (ser : Option SerPort) (closeOk : Bool) : SerialCloseResult :=
  match ser with
  | some p =>
    if p.portOpen then
      if closeOk then { ser := none, raised := false }
      else { ser := some p, raised := true }
    else
      { ser := some p, raised := false }
  | none => { ser := none, raised := false }

/-- Result of `WifiMotor._ensure_connection`: the returned boolean, the new
value of `self.sock`, and how many `socket.socket(...)` creations ran. -/
structure WifiEnsureResult where
  ok : Bool
  sock : Option Unit
  creates : Nat
deriving DecidableEq, Repr

/-- `WifiMotor._ensure_connection` (wifi_control.py lines 18-30): if
`self.sock is None`, create a datagram socket (setting a timeout on it) and
return True, or on an exception set `self.sock = None` and return False;
otherwise return True with no side effect.  The configured address/port is
not consulted and no packet is sent. -/
def wifiEnsureConnection (sock : Option Unit) (createOk : Bool) : WifiEnsureResult :=
  match sock with
  | some s => { ok := true, sock := some s, creates := 0 }
  | none =>
    if createOk then { ok := true, sock := some (), creates := 1 }
    else { ok := false, sock := none, creates := 1 }

/-- Behaviour of the OS-level socket calls during one `connect` invocation. -/
structure WifiOracle where
  createOk : Bool
  sendOk : Bool
  closeOk : Bool
deriving DecidableEq, Repr

/-- Observable outcome of one `WifiMotor.connect` call.  Each send records
(payload, destination ip, destination port). -/
structure WifiConnectResult where
  sock : Option Unit
  sends : List (String × String × Nat)
  sendFailed : Bool
  closesAttempted : Nat
  unknownLogged : Bool
  raised : Bool
  creates : Nat
deriving DecidableEq, Repr

/-- `WifiMotor.connect` (wifi_control.py lines 32-60): ensure the socket
(drop the command if that fails); look the stringified action up in
`signal_map`; if found, `sendto(signal.encode(), (ip_address, port))` — the
bare code byte, no terminator — and on a send exception log, then
`if self.sock: self.sock.close()` (NOT guarded: a failing close propagates
and skips `self.sock = None`); if not found, log "Unknown action". -/
def wifiConnect (sock0 : Option Unit) (o : WifiOracle) (ip : String) (port : Nat)
    (actionStr : String) : WifiConnectResult :=
  let e := wifiEnsureConnection sock0 o.createOk
  if e.ok then
    match signalMapGet actionStr with
    | some signal =>
      if o.sendOk then
        { sock := e.sock, sends := [(signal, ip, port)], sendFailed := false,
          closesAttempted := 0, unknownLogged := false, raised := false, creates := e.creates }
      else
        if e.sock.isSome then
          if o.closeOk then
            { sock := none, sends := [(signal, ip, port)], sendFailed := true,
              closesAttempted := 1, unknownLogged := false, raised := false,
              creates := e.creates }
          else
            { sock := e.sock, sends := [(signal, ip, port)], sendFailed := true,
              closesAttempted := 1, unknownLogged := false, raised := true,
              creates := e.creates }
        else
          { sock := none, sends := [(signal, ip, port)], sendFailed := true,
            closesAttempted := 0, unknownLogged := false, raised := false,
            creates := e.creates }
    | none =>
      { sock := e.sock, sends := [], sendFailed := false, closesAttempted := 0,
        unknownLogged := true, raised := false, creates := e.creates }
  else
    { sock := e.sock, sends := [], sendFailed := false, closesAttempted := 0,
      unknownLogged := false, raised := false, creates := e.creates }

/-- Outcome of `WifiMotor.close`. -/
structure WifiCloseResult where
  sock : Option Unit
  raised : Bool
deriving DecidableEq, Repr

/-- `WifiMotor.close` (wifi_control.py lines 62-65):
`if self.sock: self.sock.close(); self.sock = None`.  The close call is not
guarded, so if it raises the exception propagates and `self.sock = None`
never runs. -/
def wifiClose (sock : Option Unit) (closeOk : Bool) : WifiCloseResult :=
  match sock with
  | some s =>
    if closeOk then { sock := none, raised := false }
    else { sock := some s, raised := true }
  | none => { sock := none, raised := false }

/-- The `Message` dataclass of inputs/base (`Message(timestamp=..., message=...)`).
Timestamps are abstract clock readings. -/
structure Message where
  timestamp : Nat
  message : String
deriving DecidableEq, Repr

/-- Python's `str.strip()` default whitespace set, restricted to the ASCII
whitespace characters relevant to console input. -/
def pyIsSpace (c : Char) : Bool :=
  c = ' ' || c = '\t' || c = '\n' || c = '\r' || c = '\x0b' || c = '\x0c'

/-- Truthiness of `user_input.strip()`: the stripped string is non-empty
iff some character of the line is not whitespace. -/
def pyNonBlank (s : String) : Bool :=
  s.any (fun c => !(pyIsSpace c))

/-- One iteration's outcome of the blocking `input()` call inside
`Esp32Control._input_loop`: a line, end-of-input (EOFError), or another
exception. -/
inductive ReadEvent
  | line (s : String)
  | eof
  | err
deriving DecidableEq, Repr

/-- `Esp32Control._input_loop` (esp32_control.py lines 37-48), run over a
sequence of read outcomes while `self.running` holds: each read line is
enqueued into `self.message_buffer` iff `user_input.strip()` is truthy;
EOFError or any other exception breaks the loop.  The result is the FIFO
content of the queue contributed by this run. -/
def inputLoop : List ReadEvent → List String
  | [] => []
  | .line s :: rest => if pyNonBlank s then s :: inputLoop rest else inputLoop rest
  | .eof :: _ => []
  | .err :: _ => []

/-- The lines delivered by `input()` before the first EOF/error, in arrival
order. -/
def linesRead : List ReadEvent → List String
  | [] => []
  | .line s :: rest => s :: linesRead rest
  | .eof :: _ => []
  | .err :: _ => []

/-- `Queue.get_nowait` as used by `Esp32Control._poll` (lines 50-56) on a
FIFO queue: returns the head line if present, else None (queue.Empty). -/
def controlPollQueue : List String → Option String × List String
  | [] => (none, [])
  | s :: rest => (some s, rest)

/-- State of an `Esp32Control` instance relevant to buffering and drain:
the text buffer `self.messages` (a list of plain strings — note the
timestamps of converted Messages are NOT retained here), the provenance
calls made on `io_provider.add_input` as (descriptor, text, timestamp)
triples, and the texts passed to
`conversation_provider.store_user_message`. -/
structure ControlState where
  messages : List String
  ioInputs : List (String × String × Nat)
  convMessages : List String
deriving DecidableEq, Repr

/-- `Esp32Control.raw_to_text` (esp32_control.py lines 63-69): convert the
raw line to `Message(timestamp=now, message=raw)` (None stays None); if a
Message was produced, append its text when the buffer is empty, otherwise
replace the last entry by itself concatenated with the new text, separated
by one space.  Only the `.message` field of the pending Message is stored. -/
def controlRawToText (messages : List String) (raw : Option String) (now : Nat) :
    List String :=
  match raw with
  | none => messages
  | some s =>
    let pending : Message := { timestamp := now, message := s }
    if messages.length = 0 then
      messages ++ [pending.message]
    else
      messages.dropLast ++ [messages.getLastD "" ++ " " ++ pending.message]

/-- `Esp32Control.formatted_latest_buffer` (esp32_control.py lines 71-81):
if the buffer is empty return None; otherwise take `self.messages[-1]`,
format `f"User Command: {current_msg}"`, call
`io_provider.add_input("User", current_msg, time.time())` — the drain-time
clock `now`, not the Message's production timestamp — store the text with
the conversation provider, clear the buffer, and return the formatted
text. -/
def controlFormattedLatestBuffer (st : ControlState) (now : Nat) :
    Option String × ControlState :=
  if st.messages.length = 0 then
    (none, st)
  else
    let currentMsg := st.messages.getLastD ""
    (some ("User Command: " ++ currentMsg),
     { messages := [],
       ioInputs := st.ioInputs ++ [("User", currentMsg, now)],
       convMessages := st.convMessages ++ [currentMsg] })

/-- A video frame: the numpy array's shape as seen by
`raw_input.shape[:2] = (height, width)`. -/
structure Frame where
  height : Nat
  width : Nat
deriving DecidableEq, Repr

/-- State of an `Esp32CamVideo` instance: the capture handle `self.cap`
(`none` when construction failed before assignment; `some b` a handle whose
`isOpened()` returns `b`), the Message buffer, and the provenance calls made
on `io_provider.add_input`. -/
structure CamState where
  cap : Option Bool
  messages : List Message
  ioInputs : List (String × String × Nat)
deriving DecidableEq, Repr

/-- Outcome of one `Esp32CamVideo._poll` cycle. -/
structure CamPollResult where
  frame : Option Frame
  state : CamState
  warned : Bool
deriving DecidableEq, Repr

/-- `Esp32CamVideo._poll` (esp32_cam_video.py lines 98-117): after the
cadence sleep, return None if `self.cap is None or not self.cap.isOpened()`;
otherwise `ret, frame = self.cap.read()`: on success return the frame, on
failure log a warning and return None.  `self.cap` is never reassigned. -/
def camPoll (st : CamState) (readOk : Bool) (frame : Frame) : CamPollResult :=
  match st.cap with
  | none => { frame := none, state := st, warned := false }
  | some opened =>
    if opened then
      if readOk then { frame := some frame, state := st, warned := false }
      else { frame := none, state := st, warned := true }
    else
      { frame := none, state := st, warned := false }

/-- The frame description built by `Esp32CamVideo._raw_to_text`
(esp32_cam_video.py lines 139-151), with `timeStr` the
`time.strftime("%H:%M:%S")` reading. -/
def camFrameMessage (analyzeWithVlm : Bool) (timeStr : String) (f : Frame) : String :=
  if analyzeWithVlm then
    "Received video frame at " ++ timeStr ++ " (" ++ toString f.width ++ "x" ++
      toString f.height ++ " pixels). Ready for VLM analysis."
  else
    "Received video frame at " ++ timeStr ++ " (" ++ toString f.width ++ "x" ++
      toString f.height ++ " pixels). Video stream active."

/-- `Esp32CamVideo.raw_to_text` (esp32_cam_video.py lines 155-167): if a
frame is present, append `Message(timestamp=now, message=description)` to
the buffer; otherwise no change. -/
def camRawToText (st : CamState) (raw : Option Frame) (analyzeWithVlm : Bool)
    (timeStr : String) (now : Nat) : CamState :=
  match raw with
  | none => st
  | some f =>
    { st with
      messages := st.messages ++
        [{ timestamp := now, message := camFrameMessage analyzeWithVlm timeStr f }] }

/-- `Esp32CamVideo.formatted_latest_buffer` (esp32_cam_video.py lines
169-198): if the buffer is empty return None; otherwise take
`self.messages[-1]`, build the envelope
`"\nINPUT: ESP32-CAM Video\n// START\n<msg>\n// END\n"`, call
`io_provider.add_input("Esp32CamVideo", msg, msg_timestamp)` (the Message's
own timestamp), clear the buffer, and return the envelope. -/
def camFormattedLatestBuffer (st : CamState) : Option String × CamState :=
  if st.messages.length = 0 then
    (none, st)
  else
    let latest := st.messages.getLastD { timestamp := 0, message := "" }
    (some ("\nINPUT: " ++ "ESP32-CAM Video" ++ "\n// START\n" ++ latest.message ++
        "\n// END\n"),
     { st with
       messages := [],
       ioInputs := st.ioInputs ++ [("Esp32CamVideo", latest.message, latest.timestamp)] })

/-- `Esp32CamVideo.stop` (esp32_cam_video.py lines 200-208): if the capture
handle exists and is open, release it (after `release()` the handle object
remains but reports not-opened); otherwise no change. -/
def camStop (st : CamState) : CamState :=
  match st.cap with
  | some true => { st with cap := some false }
  | some false => st
  | none => st

/-- Associativity of string concatenation, used to exhibit a descriptor
label as a prefix of a formatted envelope. -/
theorem strAppendAssoc (a b c : String) : a ++ b ++ c = a ++ (b ++ c) := by
  apply String.ext
  simp [String.data_append, List.append_assoc]

/-- C1: the claim says dispatching each MotorAction member on an open guard
produces exactly one write carrying its fixed code ("F\n" on serial, "F" on
UDP).  Evaluating the embedded dispatchers at the failing input
MotorAction.FORWARD with a connected transport and a fully healthy oracle:
no write and no send occurs at all — `signal_map.get(str(action))` misses
because `str` of a `(str, Enum)` member is "MotorAction.FORWARD", and the
"Unknown action" branch runs instead.  This contradicts the repository's
own tests (test_serial_motor.py asserts `write(b"F\n")` is called once). -/
theorem dispatch_enum_member_writes_nothing :
    (OM1.serialConnect (some { portOpen := true })
        { openOk := true, writeOk := true, closeOk := true }
        OM1.MotorAction.forward.pyStr).writes = []
    ∧ (OM1.serialConnect (some { portOpen := true })
        { openOk := true, writeOk := true, closeOk := true }
        OM1.MotorAction.forward.pyStr).unknownLogged = true
    ∧ (OM1.wifiConnect (some ()) { createOk := true, sendOk := true, closeOk := true }
        "192.168.4.1" 8888 OM1.MotorAction.forward.pyStr).sends = []
    ∧ (OM1.wifiConnect (some ()) { createOk := true, sendOk := true, closeOk := true }
        "192.168.4.1" 8888 OM1.MotorAction.forward.pyStr).unknownLogged = true := by
  decide

/-- C2: the claim says the wire-encoding lookup succeeds for every
MotorAction member, making the defensive "unknown action" branch
unreachable.  In fact `signal_map.get(str(action))` returns None for every
member (`str` yields "MotorAction.FORWARD" etc., while the str-enum dict
keys compare equal to "forward" etc.), so the defensive branch runs on every
dispatch of an enumeration member and nothing is ever transmitted. -/
theorem signal_map_lookup_fails_for_every_member :
    (∀ a : OM1.MotorAction, OM1.signalMapGet a.pyStr = none)
    ∧ (∀ a : OM1.MotorAction,
        (OM1.serialConnect (some { portOpen := true })
            { openOk := true, writeOk := true, closeOk := true } a.pyStr).unknownLogged = true
        ∧ (OM1.serialConnect (some { portOpen := true })
            { openOk := true, writeOk := true, closeOk := true } a.pyStr).writes = []
        ∧ (OM1.wifiConnect (some ()) { createOk := true, sendOk := true, closeOk := true }
            "192.168.4.1" 8888 a.pyStr).unknownLogged = true
        ∧ (OM1.wifiConnect (some ()) { createOk := true, sendOk := true, closeOk := true }
            "192.168.4.1" 8888 a.pyStr).sends = []) := by
  constructor
  · intro a
    cases a <;> decide
  · intro a
    cases a <;> decide

/-- C4: ensure_open is idempotent.  Already Connected (serial: handle
present and open; UDP: socket present): returns true with the state
unchanged and zero underlying opens, whatever the oracle.  From
Disconnected: a successful open performs exactly one underlying open,
transitions to Connected and returns true, and a second call performs zero
further opens (one open in total for the two calls); a failed open leaves
the guard Disconnected and returns false. -/
theorem ensure_open_idempotent :
    ∀ (openOk2 createOk2 : Bool),
      OM1.serialEnsureConnection (some { portOpen := true }) openOk2 =
        { ok := true, ser := some { portOpen := true }, opens := 0 }
      ∧ OM1.serialEnsureConnection none true =
        { ok := true, ser := some { portOpen := true }, opens := 1 }
      ∧ OM1.serialEnsureConnection (OM1.serialEnsureConnection none true).ser openOk2 =
        { ok := true, ser := (OM1.serialEnsureConnection none true).ser, opens := 0 }
      ∧ OM1.serialEnsureConnection none false = { ok := false, ser := none, opens := 1 }
      ∧ OM1.wifiEnsureConnection (some ()) createOk2 =
        { ok := true, sock := some (), creates := 0 }
      ∧ OM1.wifiEnsureConnection none true = { ok := true, sock := some (), creates := 1 }
      ∧ OM1.wifiEnsureConnection (OM1.wifiEnsureConnection none true).sock createOk2 =
        { ok := true, sock := (OM1.wifiEnsureConnection none true).sock, creates := 0 }
      ∧ OM1.wifiEnsureConnection none false = { ok := false, sock := none, creates := 1 } := by
  decide

/-- C6: the append-and-concatenate merge discipline of Esp32Control.
Starting from an empty buffer, producing "a" then "b" with no intervening
drain yields exactly one entry whose text is "a b"; in general a new
Message is appended to an empty buffer, and otherwise the existing last
entry is replaced by itself, a space, and the new text. -/
theorem append_and_concatenate_merge :
    ∀ (t1 t2 now : Nat) (s x : String) (xs : List String),
      OM1.controlRawToText (OM1.controlRawToText [] (some "a") t1) (some "b") t2 = ["a b"]
      ∧ OM1.controlRawToText [] (some s) now = [s]
      ∧ OM1.controlRawToText (x :: xs) (some s) now =
          (x :: xs).dropLast ++ [(x :: xs).getLastD "" ++ " " ++ s]
      ∧ OM1.controlRawToText (x :: xs) none now = x :: xs := by
  intro t1 t2 now s x xs
  refine ⟨rfl, rfl, ?_, rfl⟩
  simp [OM1.controlRawToText]

/-- C10: WifiMotor._ensure_connection performs no I/O toward the configured
endpoint (the embedded definition consults no address at all, mirroring the
code, which only creates a local datagram socket): it returns true exactly
when a socket already exists or local socket creation succeeds, and false
only when creation itself raises.  An unreachable or invalid destination
surfaces only at send time: with a healthy socket, a failing `sendto` is
the first point of failure, after ensure_open already returned true. -/
theorem wifi_ensure_no_endpoint_io :
    ∀ (sock : Option Unit) (createOk closeOk : Bool) (ip : String) (port : Nat),
      (OM1.wifiEnsureConnection sock createOk).ok = (sock.isSome || createOk)
      ∧ (OM1.wifiEnsureConnection sock createOk).sock.isSome = (sock.isSome || createOk)
      ∧ (OM1.wifiConnect none { createOk := true, sendOk := false, closeOk := closeOk }
          ip port "forward").sendFailed = true
      ∧ (OM1.wifiConnect none { createOk := true, sendOk := false, closeOk := closeOk }
          ip port "forward").sends = [("F", ip, port)]
      ∧ (OM1.wifiEnsureConnection none true).ok = true := by
  intro sock createOk closeOk ip port
  refine ⟨?_, ?_, ?_, ?_, rfl⟩ <;>
    cases sock <;> cases createOk <;> cases closeOk <;> rfl

/-- C3 as stated is false: in the UDP connector's write-failure cleanup the
`self.sock.close()` call is not guarded, so when the close itself fails the
exception propagates to the caller and `self.sock = None` is skipped — the
stale socket is retained rather than discarded. -/
theorem udp_write_failure_cleanup_counterexample :
    (OM1.wifiConnect (some ()) { createOk := true, sendOk := false, closeOk := false }
      "10.0.0.7" 8888 "forward").raised = true
    ∧ (OM1.wifiConnect (some ()) { createOk := true, sendOk := false, closeOk := false }
      "10.0.0.7" 8888 "forward").sock = some () := by
  decide

/-- C3 amended: after a write failure the serial connector discards the
handle (close errors swallowed), sets it to None, raises nothing, drops the
command after exactly one failed write, and the next ensure_open performs a
fresh open; the UDP connector behaves the same provided its cleanup close
does not itself fail. -/
theorem write_failure_resets_guard_amended :
    ∀ (ser0 : Option OM1.SerPort) (sock0 : Option Unit) (closeOk : Bool)
      (a sig ip : String) (port : Nat),
      OM1.signalMapGet a = some sig →
      (OM1.serialConnect ser0 { openOk := true, writeOk := false, closeOk := closeOk } a).ser = none
      ∧ (OM1.serialConnect ser0 { openOk := true, writeOk := false, closeOk := closeOk } a).raised = false
      ∧ (OM1.serialConnect ser0 { openOk := true, writeOk := false, closeOk := closeOk } a).writes
        = [sig ++ "\n"]
      ∧ (OM1.serialConnect ser0 { openOk := true, writeOk := false, closeOk := closeOk } a).writeFailed = true
      ∧ (OM1.serialEnsureConnection
          (OM1.serialConnect ser0 { openOk := true, writeOk := false, closeOk := closeOk } a).ser
          true).opens = 1
      ∧ (OM1.wifiConnect sock0 { createOk := true, sendOk := false, closeOk := true } ip port a).sock = none
      ∧ (OM1.wifiConnect sock0 { createOk := true, sendOk := false, closeOk := true } ip port a).raised = false
      ∧ (OM1.wifiConnect sock0 { createOk := true, sendOk := false, closeOk := true } ip port a).sends
        = [(sig, ip, port)]
      ∧ (OM1.wifiConnect sock0 { createOk := true, sendOk := false, closeOk := true } ip port a).sendFailed = true
      ∧ (OM1.wifiEnsureConnection
          (OM1.wifiConnect sock0 { createOk := true, sendOk := false, closeOk := true } ip port a).sock
          true).creates = 1 := by
  intro ser0 sock0 closeOk a sig ip port h
  cases ser0 with
  | none =>
    cases sock0 <;>
      simp [OM1.serialConnect, OM1.wifiConnect, OM1.serialEnsureConnection,
        OM1.wifiEnsureConnection, h]
  | some p =>
    cases hp : p.portOpen <;> cases sock0 <;>
      simp [OM1.serialConnect, OM1.wifiConnect, OM1.serialEnsureConnection,
        OM1.wifiEnsureConnection, h, hp]

/-- Witness for the amended C3 theorem at a concrete input. -/
theorem write_failure_resets_guard_amended_witness :
    (OM1.serialConnect none { openOk := true, writeOk := false, closeOk := true }
      "forward").ser = none :=
  (write_failure_resets_guard_amended none none true "forward" "F" "10.0.0.7" 8888
    (by decide)).1

/-- C5 as stated is false for the operator-command source: the Message
produced at clock 1 has its production timestamp discarded when merged into
the buffer, and drain at clock 2 forwards the drain-time reading 2 — not
the Message's timestamp 1 — to `io_provider.add_input`. -/
theorem control_drain_timestamp_counterexample :
    (OM1.controlFormattedLatestBuffer
        { messages := OM1.controlRawToText [] (some "go") 1, ioInputs := [],
          convMessages := [] } 2).2.ioInputs = [("User", "go", 2)]
    ∧ ¬ ((OM1.controlFormattedLatestBuffer
        { messages := OM1.controlRawToText [] (some "go") 1, ioInputs := [],
          convMessages := [] } 2).2.ioInputs = [("User", "go", 1)]) := by
  decide

/-- C5 amended: drain of an empty buffer returns none with no side effect;
drain of a non-empty buffer reads the most recent (video) or sole/last
(operator) entry, returns a formatted text beginning with the source
descriptor label, forwards the raw text to `io_provider.add_input` —
together with the Message's own timestamp for the video source but the
drain-time clock for the operator source — and clears the buffer, so an
immediate second drain returns none. -/
theorem buffer_drain_contract_amended :
    ∀ (io : List (String × String × Nat)) (conv : List String) (now : Nat)
      (x : String) (xs : List String) (cap : Option Bool)
      (v : OM1.Message) (vs : List OM1.Message),
      OM1.controlFormattedLatestBuffer
        { messages := [], ioInputs := io, convMessages := conv } now
        = (none, { messages := [], ioInputs := io, convMessages := conv })
      ∧ OM1.camFormattedLatestBuffer { cap := cap, messages := [], ioInputs := io }
        = (none, { cap := cap, messages := [], ioInputs := io })
      ∧ (OM1.controlFormattedLatestBuffer
          { messages := x :: xs, ioInputs := io, convMessages := conv } now).1
        = some ("User" ++ (" Command: " ++ (x :: xs).getLastD ""))
      ∧ (OM1.controlFormattedLatestBuffer
          { messages := x :: xs, ioInputs := io, convMessages := conv } now).2
        = { messages := [], ioInputs := io ++ [("User", (x :: xs).getLastD "", now)],
            convMessages := conv ++ [(x :: xs).getLastD ""] }
      ∧ (OM1.controlFormattedLatestBuffer
          (OM1.controlFormattedLatestBuffer
            { messages := x :: xs, ioInputs := io, convMessages := conv } now).2 now).1
        = none
      ∧ (OM1.camFormattedLatestBuffer { cap := cap, messages := v :: vs, ioInputs := io }).1
        = some ("\nINPUT: " ++ "ESP32-CAM Video" ++ "\n// START\n" ++
            ((v :: vs).getLastD { timestamp := 0, message := "" }).message ++ "\n// END\n")
      ∧ (OM1.camFormattedLatestBuffer { cap := cap, messages := v :: vs, ioInputs := io }).2
        = { cap := cap, messages := [],
            ioInputs := io ++ [("Esp32CamVideo",
              ((v :: vs).getLastD { timestamp := 0, message := "" }).message,
              ((v :: vs).getLastD { timestamp := 0, message := "" }).timestamp)] }
      ∧ (OM1.camFormattedLatestBuffer
          (OM1.camFormattedLatestBuffer
            { cap := cap, messages := v :: vs, ioInputs := io }).2).1 = none := by
  intro io conv now x xs cap v vs
  have hUser : ("User" : String) ++ " Command: " = "User Command: " := by decide
  refine ⟨rfl, rfl, ?_, ?_, ?_, ?_, ?_, ?_⟩ <;>
    simp [OM1.controlFormattedLatestBuffer, OM1.camFormattedLatestBuffer,
      ← strAppendAssoc, hUser]

/-- C7 as stated is false: `WifiMotor.close` does not guard the underlying
`sock.close()`, so a failing close propagates to the caller and the socket
field is left pointing at the stale handle. -/
theorem discard_close_failure_counterexample :
    (OM1.wifiClose (some ()) false).raised = true
    ∧ (OM1.wifiClose (some ()) false).sock = some () := by
  decide

/-- C7 amended: discarding is a no-op when already Disconnected in every
path, and the serial connector's write-failure cleanup swallows a failing
close (one close attempt, nothing raised, handle set to None); but the UDP
write-failure cleanup and both explicit close() methods do not guard the
underlying close, so a close failure there propagates to the caller and the
handle is retained. -/
theorem discard_tolerance_amended :
    ∀ (closeOk : Bool) (a sig ip : String) (port : Nat),
      OM1.signalMapGet a = some sig →
      (OM1.serialConnect (some { portOpen := true })
        { openOk := true, writeOk := false, closeOk := closeOk } a).raised = false
      ∧ (OM1.serialConnect (some { portOpen := true })
        { openOk := true, writeOk := false, closeOk := closeOk } a).ser = none
      ∧ (OM1.serialConnect (some { portOpen := true })
        { openOk := true, writeOk := false, closeOk := closeOk } a).closesAttempted = 1
      ∧ OM1.serialClose none closeOk = { ser := none, raised := false }
      ∧ OM1.wifiClose none closeOk = { sock := none, raised := false }
      ∧ (OM1.wifiConnect (some ()) { createOk := true, sendOk := false, closeOk := false }
          ip port a).raised = true
      ∧ (OM1.wifiConnect (some ()) { createOk := true, sendOk := false, closeOk := false }
          ip port a).sock = some ()
      ∧ OM1.wifiClose (some ()) false = { sock := some (), raised := true }
      ∧ OM1.serialClose (some { portOpen := true }) false
        = { ser := some { portOpen := true }, raised := true } := by
  intro closeOk a sig ip port h
  cases closeOk <;>
    simp [OM1.serialConnect, OM1.serialEnsureConnection, OM1.wifiConnect,
      OM1.wifiEnsureConnection, OM1.serialClose, OM1.wifiClose, h]

/-- Witness for the amended C7 theorem at a concrete input. -/
theorem discard_tolerance_amended_witness :
    (OM1.serialConnect (some { portOpen := true })
      { openOk := true, writeOk := false, closeOk := false } "stop").raised = false :=
  (discard_tolerance_amended false "stop" "S" "10.0.0.7" 8888 (by decide)).1

/-- C8: a failed video poll (no capture handle, capture not open, or a read
returning no frame) yields no Sample, warns at most on the failed read, and
leaves the capture handle exactly as it was; raw_to_text and drain never
touch the handle either; only stop() releases an open capture. -/
theorem failed_poll_leaves_capture_untouched :
    ∀ (st : OM1.CamState) (readOk : Bool) (f : OM1.Frame) (raw : Option OM1.Frame)
      (analyze : Bool) (tstr : String) (now : Nat),
      (st.cap = none →
        OM1.camPoll st readOk f = { frame := none, state := st, warned := false })
      ∧ (st.cap = some false →
        OM1.camPoll st readOk f = { frame := none, state := st, warned := false })
      ∧ (st.cap = some true → readOk = false →
        OM1.camPoll st readOk f = { frame := none, state := st, warned := true })
      ∧ (OM1.camPoll st readOk f).state = st
      ∧ (OM1.camRawToText st raw analyze tstr now).cap = st.cap
      ∧ (OM1.camFormattedLatestBuffer st).2.cap = st.cap
      ∧ (OM1.camStop { cap := some true, messages := st.messages,
                       ioInputs := st.ioInputs }).cap = some false
      ∧ (OM1.camStop { cap := some false, messages := st.messages,
                       ioInputs := st.ioInputs }).cap = some false
      ∧ (OM1.camStop { cap := none, messages := st.messages,
                       ioInputs := st.ioInputs }).cap = none := by
  intro st readOk f raw analyze tstr now
  obtain ⟨cap, msgs, io⟩ := st
  refine ⟨?_, ?_, ?_, ?_, ?_, ?_, rfl, rfl, rfl⟩
  · intro h
    simp only at h
    simp [OM1.camPoll, h]
  · intro h
    simp only at h
    simp [OM1.camPoll, h]
  · intro h hr
    simp only at h
    simp [OM1.camPoll, h, hr]
  · cases cap with
    | none => rfl
    | some b => cases b <;> cases readOk <;> rfl
  · cases raw <;> rfl
  · simp only [OM1.camFormattedLatestBuffer]
    split <;> rfl

/-- Witness for the C8 theorem at a concrete input. -/
theorem failed_poll_leaves_capture_untouched_witness :
    OM1.camPoll { cap := some true, messages := [], ioInputs := [] } false
      { height := 3, width := 4 }
      = { frame := none,
          state := { cap := some true, messages := [], ioInputs := [] },
          warned := true } :=
  (failed_poll_leaves_capture_untouched { cap := some true, messages := [], ioInputs := [] }
    false { height := 3, width := 4 } none false "00:00:00" 0).2.2.1 rfl rfl

/-- C9: the Thread Bridge input loop enqueues exactly the non-blank lines
read before the first end-of-input or read error, in arrival order (the
queue content equals the order-preserving filter of the received lines by
non-blankness), and the poll side dequeues from the front of that FIFO
queue. -/
theorem bridge_enqueues_nonblank_in_order :
    ∀ (events : List OM1.ReadEvent) (s : String) (rest : List String),
      OM1.inputLoop events = (OM1.linesRead events).filter OM1.pyNonBlank
      ∧ OM1.controlPollQueue (s :: rest) = (some s, rest)
      ∧ OM1.controlPollQueue [] = (none, []) := by
  intro events s rest
  refine ⟨?_, rfl, rfl⟩
  induction events with
  | nil => rfl
  | cons e es ih =>
    cases e with
    | line t =>
      cases hp : OM1.pyNonBlank t <;>
        simp [OM1.inputLoop, OM1.linesRead, List.filter_cons, hp, ih]
    | eof => rfl
    | err => rfl

end OM1
